import Mathlib

/-!
Verification of the value-based RL agents of this repository
(src/src/agents.py, src/src/lunar/agents.py) against its specification.

Numeric values carried by torch tensors are modelled as rationals (`ℚ`),
network forward passes as abstract functions from states to action-value
vectors, and network parameters as an abstract type.  Each definition below
is a direct translation of the corresponding Python code; the source file
and line numbers are recorded in the doc comments.
-/

/-- Model of `torch.argmax` over a one-dimensional tensor of `A + 1` action values:
returns the index of the first maximal value (used at src/src/agents.py:211,
src/src/lunar/agents.py:155 and in `act` of every agent). -/
def argmaxQ {A : ℕ} (q : Fin (A + 1) → ℚ) : Fin (A + 1) :=
  (List.finRange (A + 1)).foldl (fun best i => if q best < q i then i else best) 0

/-- Model of `torch.max` over a one-dimensional tensor of `A + 1` action values
(src/src/agents.py:117, src/src/lunar/agents.py:237). -/
def maxQ {A : ℕ} (q : Fin (A + 1) → ℚ) : ℚ :=
  q (argmaxQ q)

theorem foldl_argmax_ge {A : ℕ} (q : Fin (A + 1) → ℚ) :
    ∀ (l : List (Fin (A + 1))) (b : Fin (A + 1)),
      q b ≤ q (l.foldl (fun best i => if q best < q i then i else best) b) ∧
      ∀ i ∈ l, q i ≤ q (l.foldl (fun best i => if q best < q i then i else best) b) := by
  intro l
  induction l with
  | nil => intro b; exact ⟨le_refl _, by intro i hi; cases hi⟩
  | cons x xs ih =>
    intro b
    have step : q b ≤ q (if q b < q x then x else b) ∧ q x ≤ q (if q b < q x then x else b) := by
      by_cases h : q b < q x
      · simp [h]; exact le_of_lt h
      · simp [h]; exact le_of_not_lt h
    obtain ⟨hb, hall⟩ := ih (if q b < q x then x else b)
    refine ⟨le_trans step.1 hb, ?_⟩
    intro i hi
    rcases List.mem_cons.mp hi with rfl | hmem
    · exact le_trans step.2 hb
    · exact hall i hmem

/-- Every action value is bounded by the value at `argmaxQ`. -/
theorem argmaxQ_isMax {A : ℕ} (q : Fin (A + 1) → ℚ) (a : Fin (A + 1)) :
    q a ≤ q (argmaxQ q) := by
  have h := (foldl_argmax_ge q (List.finRange (A + 1)) 0).2
  exact h a (List.mem_finRange a)

/-- Atari `DQNAgent.learn` expected state-action value for one transition of
the sampled batch (src/src/agents.py:117-121): `next_state_values` is the
maximum of the target network's output at the new state, it is zeroed for
terminal transitions, scaled by the literal discount `0.999` and the reward
is added. -/
def atariDqnExpected {S : Type} {A : ℕ} (targetQ : S → Fin (A + 1) → ℚ)
    (reward : ℚ) (done : Bool) (newState : S) : ℚ :=
  (if done then 0 else maxQ (targetQ newState)) * (999 / 1000) + reward

/-- Lunar `DQNAgent.learn` expected state-action value for one transition
(src/src/lunar/agents.py:153-162): the bootstrap action is
`torch.argmax(self.policy(new_state))`, the value is the target network's
output at that action, zeroed for terminal transitions, scaled by the
literal discount `0.99`, plus the reward. -/
def lunarDqnExpected {S : Type} {A : ℕ} (policyQ targetQ : S → Fin (A + 1) → ℚ)
    (reward : ℚ) (done : Bool) (newState : S) : ℚ :=
  (if done then 0 else targetQ newState (argmaxQ (policyQ newState))) * (99 / 100) + reward

/-- Lunar `OfflineDQNAgent.learn` expected state-action value for one
transition (src/src/lunar/agents.py:236-241): maximum of the target
network's output at the new state, zeroed for terminal transitions, scaled
by the configured `gamma`, plus the reward. -/
def offlineDqnExpected {S : Type} {A : ℕ} (gamma : ℚ) (targetQ : S → Fin (A + 1) → ℚ)
    (reward : ℚ) (done : Bool) (newState : S) : ℚ :=
  (if done then 0 else maxQ (targetQ newState)) * gamma + reward

/-- Atari `DoubleDQNAgent.learn` expected state-action value for one
transition (src/src/agents.py:210-218): bootstrap action is
`torch.argmax(self.policy(new_state), dim=1)`, evaluated by the target
network, zeroed for terminal transitions, scaled by `0.999`, plus reward. -/
def doubleDqnExpected {S : Type} {A : ℕ} (policyQ targetQ : S → Fin (A + 1) → ℚ)
    (reward : ℚ) (done : Bool) (newState : S) : ℚ :=
  (if done then 0 else targetQ newState (argmaxQ (policyQ newState))) * (999 / 1000) + reward

/-- C1 counterexample: with two actions, a policy network valuing the next
state as `[1, 0]` and a target network valuing it as `[0, 1]`, the lunar
`DQNAgent.learn` regression target for reward `0`, `done = false` is `0`
(the target network evaluated at the policy network's argmax, action `0`),
not `reward + 0.99 * max_a Q_target(s6, a) = 0.99` as the claim states. -/
theorem claim1_counterexample :
    lunarDqnExpected (fun _ : Unit => ![(1 : ℚ), 0]) (fun _ : Unit => ![(0 : ℚ), 1])
        0 false ()
      ≠ 0 + (99 / 100) * maxQ ((fun _ : Unit => ![(0 : ℚ), 1]) ()) := by
  have ha : argmaxQ ![(1 : ℚ), 0] = 0 := by rfl
  have hm : maxQ ![(0 : ℚ), 1] = 1 := by rfl
  simp [lunarDqnExpected, ha, hm]
  norm_num

/-- C1 (amended): the atari `DQNAgent` and the lunar `OfflineDQNAgent`
compute the regression target `reward + gamma * max_a Q_target(s6, a)` with
the maximizing action taken over the target network's own outputs (gamma
being the literal `0.999` for the atari agent and the configured `gamma`
for the offline agent), and the bootstrap term is zeroed when `done` is
true; the lunar `DQNAgent`, however, selects the bootstrap action as the
argmax of the **policy** network's output on the next state and evaluates
it with the target network (Double-DQN style), with discount `0.99`. -/
theorem claim1_target_rules {S : Type} {A : ℕ} (policyQ targetQ : S → Fin (A + 1) → ℚ)
    (gamma reward : ℚ) (done : Bool) (s2 : S) :
    (∃ astar, (∀ a, targetQ s2 a ≤ targetQ s2 astar) ∧
      atariDqnExpected targetQ reward done s2
        = reward + (999 / 1000) * (if done then 0 else targetQ s2 astar) ∧
      offlineDqnExpected gamma targetQ reward done s2
        = reward + gamma * (if done then 0 else targetQ s2 astar)) ∧
    (∃ bstar, (∀ a, policyQ s2 a ≤ policyQ s2 bstar) ∧
      lunarDqnExpected policyQ targetQ reward done s2
        = reward + (99 / 100) * (if done then 0 else targetQ s2 bstar)) := by
  refine ⟨⟨argmaxQ (targetQ s2), argmaxQ_isMax _, ?_, ?_⟩,
          ⟨argmaxQ (policyQ s2), argmaxQ_isMax _, ?_⟩⟩
  · cases done <;> simp [atariDqnExpected, maxQ] <;> ring
  · cases done <;> simp [offlineDqnExpected, maxQ] <;> ring
  · cases done <;> simp [lunarDqnExpected] <;> ring

/-- C4: in `DoubleDQNAgent.learn` the bootstrap action maximizes the
policy network's output on the next state, the bootstrapped value is the
target network's estimate of that action, and the target equals
`reward + 0.999 * Q_target(s6, a*) * (1 - done)` with the bootstrap zeroed
on terminal transitions. -/
theorem claim4_double_dqn_target {S : Type} {A : ℕ} (policyQ targetQ : S → Fin (A + 1) → ℚ)
    (reward : ℚ) (done : Bool) (s2 : S) :
    ∃ astar, (∀ a, policyQ s2 a ≤ policyQ s2 astar) ∧
      doubleDqnExpected policyQ targetQ reward done s2
        = reward + (999 / 1000) * (if done then 0 else targetQ s2 astar) := by
  refine ⟨argmaxQ (policyQ s2), argmaxQ_isMax _, ?_⟩
  cases done <;> simp [doubleDqnExpected] <;> ring

/-- State of an online agent (atari `DQNAgent`/`DoubleDQNAgent`, lunar
`DQNAgent`): policy and target parameters (abstract type `P`) and the
`steps_done` counter, which is incremented once per `act()` call
(src/src/agents.py:84, src/src/lunar/agents.py:111). -/
structure OnlineAgentState (P : Type) where
  policy : P
  target : P
  stepsDone : ℕ

/-- State of an offline agent (lunar `OfflineDQNAgent` and the other
offline variants): policy and target parameters and the `batches_done`
counter, incremented at the end of every `learn()` call
(src/src/lunar/agents.py:203, 263). -/
structure OfflineAgentState (P : Type) where
  policy : P
  target : P
  batchesDone : ℕ

/-- Effect of `act()` of an online agent, restricted to its effect on the agent
state: `self.steps_done += 1`; policy and target parameters are untouched
(src/src/agents.py:81-91, src/src/lunar/agents.py:117-127). -/
def onlineAct {P : Type} (s : OnlineAgentState P) : OnlineAgentState P :=
  { s with stepsDone := s.stepsDone + 1 }

/-- Effect of `learn()` of an online agent, restricted to its effect on the
parameters: the optimizer step mutates the policy (abstracted as an
arbitrary update function `u`), then the target is overwritten with the
policy's parameters when `self.steps_done % self.target_update_steps == 0`
(src/src/agents.py:127-135, src/src/lunar/agents.py:167-176). -/
def onlineLearn {P : Type} (N : ℕ) (u : P → P) (s : OnlineAgentState P) :
    OnlineAgentState P :=
  let policy := u s.policy
  { s with
    policy := policy
    target := if s.stepsDone % N = 0 then policy else s.target }

/-- Effect of `learn()` of an offline agent, restricted to its effect on the
parameters: the optimizer step mutates the policy, the target is
overwritten with the new policy parameters when
`self.batches_done % self.target_update_steps == 0`, and `batches_done` is
incremented afterwards (src/src/lunar/agents.py:246-263). -/
def offlineLearn {P : Type} (N : ℕ) (u : P → P) (s : OfflineAgentState P) :
    OfflineAgentState P :=
  let policy := u s.policy
  { policy := policy
    target := if s.batchesDone % N = 0 then policy else s.target
    batchesDone := s.batchesDone + 1 }

/-- C2 counterexample: an `OfflineDQNAgent` with `target_update_steps = 2`,
parameters modelled as naturals starting at `0` with an optimizer step that
increments them: immediately after the second (`target_update_steps`-th)
`learn()` call the target parameters (synced during the first call, when
`batches_done = 0`) differ from the policy parameters. -/
theorem claim2_counterexample :
    (offlineLearn 2 Nat.succ (offlineLearn 2 Nat.succ
        (⟨0, 0, 0⟩ : OfflineAgentState ℕ))).target
      ≠ (offlineLearn 2 Nat.succ (offlineLearn 2 Nat.succ
        (⟨0, 0, 0⟩ : OfflineAgentState ℕ))).policy := by
  decide

/-- C2 (amended): the target parameters are overwritten with the policy
parameters during a `learn()` call exactly when the agent's counter is
divisible by `target_update_steps`; the counter is `steps_done` (the number
of `act()` calls so far) for the online agents and `batches_done` (the
number of `learn()` calls completed before the current one) for the
offline agents — so offline agents sync on the 1st, `(N+1)`-th,
`(2N+1)`-th, ... `learn()` calls rather than the `N`-th, and online syncs
are keyed to the act counter, not the learn count. Otherwise the target is
left unchanged: `act()` never touches it, and between two syncs it stays
constant over any run of `learn()` calls none of which meets the sync
condition. -/
theorem claim2_target_sync {P : Type} (N : ℕ) (u : P → P)
    (s : OnlineAgentState P) (t : OfflineAgentState P) :
    ((onlineLearn N u s).target
        = if s.stepsDone % N = 0 then u s.policy else s.target) ∧
    (onlineLearn N u s).policy = u s.policy ∧
    (onlineLearn N u s).stepsDone = s.stepsDone ∧
    (onlineAct s).target = s.target ∧
    (onlineAct s).policy = s.policy ∧
    (onlineAct s).stepsDone = s.stepsDone + 1 ∧
    ((offlineLearn N u t).target
        = if t.batchesDone % N = 0 then u t.policy else t.target) ∧
    (offlineLearn N u t).policy = u t.policy ∧
    (offlineLearn N u t).batchesDone = t.batchesDone + 1 ∧
    (∀ m : ℕ, (∀ j, j < m → (t.batchesDone + j) % N ≠ 0) →
      ((offlineLearn N u)^[m] t).target = t.target) := by
  refine ⟨rfl, rfl, rfl, rfl, rfl, rfl, rfl, rfl, rfl, ?_⟩
  intro m
  induction m generalizing t with
  | zero => intro _; rfl
  | succ m ih =>
    intro h
    rw [Function.iterate_succ_apply]
    have h0 : t.batchesDone % N ≠ 0 := by
      have := h 0 (Nat.succ_pos m)
      simpa using this
    have htail : ∀ j, j < m → ((offlineLearn N u t).batchesDone + j) % N ≠ 0 := by
      intro j hj
      have := h (j + 1) (by omega)
      have harith : t.batchesDone + (j + 1) = (offlineLearn N u t).batchesDone + j := by
        simp [offlineLearn]
        omega
      rwa [harith] at this
    have := ih (offlineLearn N u t) htail
    rw [this]
    simp [offlineLearn, h0]

/-- C2 witness: with `target_update_steps = 3` and an offline agent whose
`batches_done` is `1` (so neither of the next two learn calls meets the
sync condition), two further `learn()` calls leave the target parameters,
here `5`, unchanged. -/
theorem claim2_target_sync_witness :
    ((offlineLearn 3 Nat.succ)^[2] (⟨0, 5, 1⟩ : OfflineAgentState ℕ)).target = 5 := by
  have h := (claim2_target_sync 3 Nat.succ
      (⟨0, 0, 0⟩ : OnlineAgentState ℕ) (⟨0, 5, 1⟩ : OfflineAgentState ℕ)).2.2.2.2.2.2.2.2.2
  exact h 2 (by decide)

/-- Atari `DQNAgent.__init__` effect on the parameters
(src/src/agents.py:65-68): policy and target networks are created with
independent random initialisations `policyInit` and `targetInit`, and then
the code executes `self.target.load_state_dict(self.target.state_dict())`
— it loads the **target's own** state dict back into the target, so the
target keeps its independent initialisation. -/
def atariDqnConstruct {P : Type} (policyInit targetInit : P) : OnlineAgentState P :=
  { policy := policyInit, target := targetInit, stepsDone := 0 }

/-- Atari `DoubleDQNAgent.__init__` effect on the parameters
(src/src/agents.py:159-162): `self.target.load_state_dict(self.policy.state_dict())`
overwrites the target's initialisation with the policy's. -/
def doubleDqnConstruct {P : Type} (policyInit targetInit : P) : OnlineAgentState P :=
  { policy := policyInit, target := policyInit, stepsDone := 0 }

/-- Lunar `DQNAgent.__init__` effect on the parameters
(src/src/lunar/agents.py:102-105): the target is loaded from the policy's
state dict. -/
def lunarDqnConstruct {P : Type} (policyInit targetInit : P) : OnlineAgentState P :=
  { policy := policyInit, target := policyInit, stepsDone := 0 }

/-- Lunar `OfflineDQNAgent.__init__` effect on the parameters
(src/src/lunar/agents.py:210-213); `EnsembleOffDQNAgent` (292-295),
`REMOffDQNAgent` (365-367) and `QROffDQNAgent` (440-443) are identical:
the target is loaded from the policy's state dict. -/
def offlineDqnConstruct {P : Type} (policyInit targetInit : P) : OfflineAgentState P :=
  { policy := policyInit, target := policyInit, batchesDone := 0 }

/-- C3: in every variant except the atari `DQNAgent` the target parameters
equal the policy parameters immediately after construction; the atari
`DQNAgent` instead leaves the target at its own independent random
initialisation (`load_state_dict(self.target.state_dict())` is a no-op),
shown here with distinct initialisations `0` and `1`. -/
theorem claim3_target_clone_at_construction :
    ((atariDqnConstruct (0 : ℕ) 1).target ≠ (atariDqnConstruct (0 : ℕ) 1).policy) ∧
    (∀ (P : Type) (p t : P),
      (doubleDqnConstruct p t).target = (doubleDqnConstruct p t).policy ∧
      (lunarDqnConstruct p t).target = (lunarDqnConstruct p t).policy ∧
      (offlineDqnConstruct p t).target = (offlineDqnConstruct p t).policy) := by
  exact ⟨by decide, fun P p t => ⟨rfl, rfl, rfl⟩⟩

/-- Exponential exploration schedule of the atari agents
(src/src/agents.py:81-83 and 175-177): the threshold used at the `t`-th
`act()` call (with `steps_done = t` before its increment) is
`eps_end + (eps_start - eps_end) * exp(-steps_done / eps_decay)` with
`eps_start = 0.99`, `eps_end = 0.05`, `eps_decay = 5000`. -/
noncomputable def atariEps (t : ℕ) : ℝ :=
  0.05 + (0.99 - 0.05) * Real.exp (-(1 : ℝ) * t / 5000)

/-- One `act()` call's update of the lunar `DQNAgent` linear schedule
(src/src/lunar/agents.py:117-119): the stored threshold is decremented by
`eps_decay = (eps_start - eps_end) / 100000 = 47/5000000` while it is
still above `eps_end = 0.05`, and is then left unchanged. -/
def lunarEpsStep (x : ℚ) : ℚ :=
  if x > 1 / 20 then x - 47 / 5000000 else x

/-- Threshold stored in the lunar `DQNAgent` after `n` `act()` calls; it is
initialised to `eps_start = 0.99` at construction
(src/src/lunar/agents.py:112-115), and the value used for the comparison at
the `n`-th call is `lunarEps n`. -/
def lunarEps : ℕ → ℚ
  | 0 => 99 / 100
  | n + 1 => lunarEpsStep (lunarEps n)

/-- Closed form for the linear schedule: after `n` calls the threshold is
`0.05` plus the remaining `100000 - n` (truncated) decrement steps. -/
theorem lunarEps_eq (n : ℕ) :
    lunarEps n = 1 / 20 + ((100000 - n : ℕ) : ℚ) * (47 / 5000000) := by
  induction n with
  | zero => norm_num [lunarEps]
  | succ n ih =>
    rw [lunarEps, ih, lunarEpsStep]
    by_cases h : n < 100000
    · have hm : 100000 - n = (100000 - (n + 1)) + 1 := by omega
      have hpos : (0 : ℚ) < ((100000 - n : ℕ) : ℚ) * (47 / 5000000) := by
        have : (0 : ℚ) < ((100000 - n : ℕ) : ℚ) := by
          have : 0 < 100000 - n := by omega
          exact_mod_cast this
        positivity
      rw [if_pos (by linarith)]
      rw [hm]
      push_cast
      ring
    · have h0 : 100000 - n = 0 := by omega
      have h1 : 100000 - (n + 1) = 0 := by omega
      rw [h0, h1]
      norm_num

/-- C5: along any sequence of `act()` calls, both exploration schedules are
monotonically non-increasing, never strictly below `eps_end`, and converge
to `eps_end`: the atari agents' exponential threshold `atariEps` is
non-increasing, bounded below by `0.05` and tends to `0.05`; the lunar
`DQNAgent`'s linear threshold `lunarEps` is non-increasing, bounded below
by `eps_end = 1/20` and equals `1/20` from the 100000-th call on. -/
theorem claim5_epsilon_schedule :
    (∀ t : ℕ, atariEps (t + 1) ≤ atariEps t) ∧
    (∀ t : ℕ, (0.05 : ℝ) ≤ atariEps t) ∧
    Filter.Tendsto atariEps Filter.atTop (nhds 0.05) ∧
    (∀ n : ℕ, lunarEps (n + 1) ≤ lunarEps n) ∧
    (∀ n : ℕ, 1 / 20 ≤ lunarEps n) ∧
    (∀ n : ℕ, lunarEps (100000 + n) = 1 / 20) := by
  refine ⟨?_, ?_, ?_, ?_, ?_, ?_⟩
  · intro t
    unfold atariEps
    have hexp : Real.exp (-(1 : ℝ) * ((t + 1 : ℕ) : ℝ) / 5000)
        ≤ Real.exp (-(1 : ℝ) * t / 5000) := by
      apply Real.exp_le_exp.mpr
      have hc : ((t : ℝ)) + 1 = ((t + 1 : ℕ) : ℝ) := by push_cast; ring
      rw [← hc]
      linarith
    have h94 : (0 : ℝ) ≤ 0.99 - 0.05 := by norm_num
    linarith [mul_le_mul_of_nonneg_left hexp h94]
  · intro t
    unfold atariEps
    have := Real.exp_pos (-(1 : ℝ) * t / 5000)
    nlinarith
  · have hdiv : Filter.Tendsto (fun t : ℕ => (t : ℝ) / 5000) Filter.atTop Filter.atTop :=
      Filter.Tendsto.atTop_div_const (by norm_num) tendsto_natCast_atTop_atTop
    have hneg : Filter.Tendsto (fun t : ℕ => -((t : ℝ) / 5000)) Filter.atTop Filter.atBot :=
      Filter.tendsto_neg_atBot_iff.mpr hdiv
    have h1 : Filter.Tendsto (fun t : ℕ => -(1 : ℝ) * t / 5000)
        Filter.atTop Filter.atBot := by
      have heq : (fun t : ℕ => -(1 : ℝ) * t / 5000) = fun t : ℕ => -((t : ℝ) / 5000) := by
        funext t; ring
      rw [heq]; exact hneg
    have h2 : Filter.Tendsto (fun t : ℕ => Real.exp (-(1 : ℝ) * t / 5000))
        Filter.atTop (nhds 0) := Real.tendsto_exp_atBot.comp h1
    have h3 : Filter.Tendsto atariEps Filter.atTop (nhds (0.05 + (0.99 - 0.05) * 0)) := by
      unfold atariEps
      exact (h2.const_mul _).const_add _
    simpa using h3
  · intro n
    show lunarEpsStep (lunarEps n) ≤ lunarEps n
    unfold lunarEpsStep
    by_cases h : lunarEps n > 1 / 20
    · rw [if_pos h]; linarith
    · rw [if_neg h]
  · intro n
    rw [lunarEps_eq]
    have : (0 : ℚ) ≤ ((100000 - n : ℕ) : ℚ) * (47 / 5000000) := by positivity
    linarith
  · intro n
    rw [lunarEps_eq]
    have h0 : 100000 - (100000 + n) = 0 := by omega
    rw [h0]
    norm_num

/-- Number of quantiles of `QROffDQNAgent`, the literal `5`
(src/src/lunar/agents.py:436). -/
def numQuantiles : ℕ := 5

/-- Quantile levels of `QROffDQNAgent`: `(torch.arange(5) + 1) / 5`
(src/src/lunar/agents.py:437). -/
def tau (i : Fin numQuantiles) : ℚ :=
  ((i : ℕ) + 1) / numQuantiles

/-- Indicator `(diff < 0).float()` computed in `QROffDQNAgent.learn`
(src/src/lunar/agents.py:481-482), where `diff` is the target minus the
predicted quantile. -/
def qrDelta (diff : ℚ) : ℚ :=
  if diff < 0 then 1 else 0

/-- Elementwise weighting `torch.abs(self.tau - delta)` applied to the
Huber loss in `QROffDQNAgent.learn` (src/src/lunar/agents.py:483). -/
def qrWeight (i : Fin numQuantiles) (diff : ℚ) : ℚ :=
  |tau i - qrDelta diff|

/-- C6: with the fixed `N = 5` quantiles, the quantile levels are
`tau = [0.2, 0.4, 0.6, 0.8, 1.0]` (that is `tau i = (i + 1) / 5`), and for
every difference `target - predicted` the elementwise loss weighting
`|tau_i - 1{diff < 0}|` lies in `[0, 1]` in every component. -/
theorem claim6_qr_tau_and_weight :
    (∀ i, tau i = ![(1 : ℚ) / 5, 2 / 5, 3 / 5, 4 / 5, 1] i) ∧
    (∀ (i : Fin numQuantiles) (diff : ℚ),
      0 ≤ qrWeight i diff ∧ qrWeight i diff ≤ 1) := by
  have htau : ∀ i : Fin numQuantiles, 0 < tau i ∧ tau i ≤ 1 := by
    intro i
    fin_cases i <;> constructor <;> norm_num [tau, numQuantiles]
  constructor
  · intro i
    fin_cases i <;> norm_num [tau, numQuantiles]
  · intro i diff
    obtain ⟨h0, h1⟩ := htau i
    unfold qrWeight qrDelta
    by_cases h : diff < 0
    · rw [if_pos h, abs_sub_comm, abs_of_nonneg (by linarith)]
      constructor <;> linarith
    · rw [if_neg h, sub_zero, abs_of_nonneg (by linarith)]
      constructor <;> linarith

/-- Normalised mixture weights drawn in `REMOffDQNAgent.learn`
(src/src/lunar/agents.py:378-380): a vector `alpha` of `torch.rand` draws
over the heads is divided by its sum. -/
def remAlpha {k : ℕ} (draw : Fin (k + 1) → ℚ) : Fin (k + 1) → ℚ :=
  fun i => draw i / ∑ j, draw j

/-- C7: for any fresh draw of per-head random values (each nonnegative, at
least one positive, as produced by `torch.rand` almost surely), the mixture
weight vector computed by `REMOffDQNAgent.learn` has every component
nonnegative and the components sum to `1`. -/
theorem claim7_rem_mixture_weights {k : ℕ} (draw : Fin (k + 1) → ℚ)
    (hnonneg : ∀ i, 0 ≤ draw i) (hpos : ∃ i, 0 < draw i) :
    (∀ i, 0 ≤ remAlpha draw i) ∧ ∑ i, remAlpha draw i = 1 := by
  have hsum : 0 < ∑ j, draw j := by
    obtain ⟨i, hi⟩ := hpos
    exact Finset.sum_pos' (fun j _ => hnonneg j) ⟨i, Finset.mem_univ i, hi⟩
  constructor
  · intro i
    exact div_nonneg (hnonneg i) (le_of_lt hsum)
  · unfold remAlpha
    rw [← Finset.sum_div]
    exact div_self (ne_of_gt hsum)

/-- C7 witness: the normalisation applied to the concrete draw
`[1/2, 1/4, 1/4]` yields nonnegative weights summing to `1`. -/
theorem claim7_rem_mixture_weights_witness :
    (∀ i, 0 ≤ remAlpha ![(1 : ℚ) / 2, 1 / 4, 1 / 4] i) ∧
    ∑ i, remAlpha ![(1 : ℚ) / 2, 1 / 4, 1 / 4] i = 1 := by
  refine claim7_rem_mixture_weights ![(1 : ℚ) / 2, 1 / 4, 1 / 4] ?_ ⟨0, by norm_num⟩
  intro i
  fin_cases i <;> norm_num

/-- Linear Q-value of `OfflineLSPIAgent`:
`torch.matmul(self.weights, self.basis_function.evaluate(state, a))`
(src/src/lunar/agents.py:540). -/
def lspiQ {S : Type} {A k : ℕ} (φ : S → Fin (A + 1) → Fin k → ℚ)
    (w : Fin k → ℚ) (s : S) (a : Fin (A + 1)) : ℚ :=
  ∑ j, w j * φ s a j

/-- Model of `OfflineLSPIAgent.act` (src/src/lunar/agents.py:536-542): the argmax
over actions of the linear Q-values under the current weights. -/
def lspiAct {S : Type} {A k : ℕ} (φ : S → Fin (A + 1) → Fin k → ℚ)
    (w : Fin k → ℚ) (s : S) : Fin (A + 1) :=
  argmaxQ (lspiQ φ w s)

/-- Feature vector `phi_sa` of transition `i` in `OfflineLSPIAgent.learn`
(src/src/lunar/agents.py:558): the basis function evaluated at the current
state and the stored action. -/
def lspiPhiSa {S : Type} {A k n : ℕ} (φ : S → Fin (A + 1) → Fin k → ℚ)
    (state : Fin n → S) (action : Fin n → Fin (A + 1)) (i : Fin n) : Fin k → ℚ :=
  φ (state i) (action i)

/-- Successor feature vector `phi_sprime` of transition `i` in
`OfflineLSPIAgent.learn` (src/src/lunar/agents.py:560-564): zero when the
transition is terminal; otherwise the basis function evaluated at the new
state and `best_action = self.act(state[i])` — the greedy action of the
**current** state. -/
def lspiPhiSprime {S : Type} {A k n : ℕ} (φ : S → Fin (A + 1) → Fin k → ℚ)
    (w : Fin k → ℚ) (state : Fin n → S) (done : Fin n → Bool)
    (newState : Fin n → S) (i : Fin n) : Fin k → ℚ :=
  if done i then (fun _ => 0) else φ (newState i) (lspiAct φ w (state i))

/-- Successor feature vector as it would be were the greedy action taken at
the successor state itself, `self.act(new_state[i])`; stated from the
spec reading of LSTDQ for comparison with `lspiPhiSprime` — the code does
not do this. -/
def lspiPhiSprimeAlt {S : Type} {A k n : ℕ} (φ : S → Fin (A + 1) → Fin k → ℚ)
    (w : Fin k → ℚ) (done : Fin n → Bool)
    (newState : Fin n → S) (i : Fin n) : Fin k → ℚ :=
  if done i then (fun _ => 0) else φ (newState i) (lspiAct φ w (newState i))

/-- Outer product `torch.matmul(u, v.T)` of two `k × 1` column vectors
(src/src/lunar/agents.py:567). -/
def outerProd {k : ℕ} (u v : Fin k → ℚ) : Matrix (Fin k) (Fin k) ℚ :=
  Matrix.of fun r c => u r * v c

/-- Initial accumulator `torch.zeros((k, k)).fill_diagonal_(0.1)` of
`OfflineLSPIAgent.learn` (src/src/lunar/agents.py:554). -/
def regMat (k : ℕ) : Matrix (Fin k) (Fin k) ℚ :=
  Matrix.of fun r c => if r = c then 1 / 10 else 0

/-- The system matrix `a_mat` accumulated over the batch in
`OfflineLSPIAgent.learn` (src/src/lunar/agents.py:554-567) at the moment it
is handed to `torch.solve`: the regularised diagonal plus, for every
transition, `phi_sa @ (phi_sa - gamma * phi_sprime).T`. -/
def lspiAMat {S : Type} {A k n : ℕ} (φ : S → Fin (A + 1) → Fin k → ℚ)
    (γ : ℚ) (w : Fin k → ℚ) (state : Fin n → S) (action : Fin n → Fin (A + 1))
    (done : Fin n → Bool) (newState : Fin n → S) : Matrix (Fin k) (Fin k) ℚ :=
  regMat k + ∑ i, outerProd (lspiPhiSa φ state action i)
    (fun c => lspiPhiSa φ state action i c
      - γ * lspiPhiSprime φ w state done newState i c)

/-- The vector `b_vec` accumulated over the batch in
`OfflineLSPIAgent.learn` (src/src/lunar/agents.py:555-568):
`b_vec += phi_sa * reward[i]`. -/
def lspiBVec {S : Type} {A k n : ℕ} (φ : S → Fin (A + 1) → Fin k → ℚ)
    (state : Fin n → S) (action : Fin n → Fin (A + 1))
    (reward : Fin n → ℚ) : Fin k → ℚ :=
  fun c => ∑ i, lspiPhiSa φ state action i c * reward i

/-- The part of `a_mat` contributed by the discounted successor features,
`gamma * Σ_i phi_sa_i @ phi_sprime_i.T` without the `gamma` factor. -/
def lspiCrossMat {S : Type} {A k n : ℕ} (φ : S → Fin (A + 1) → Fin k → ℚ)
    (w : Fin k → ℚ) (state : Fin n → S) (action : Fin n → Fin (A + 1))
    (done : Fin n → Bool) (newState : Fin n → S) : Matrix (Fin k) (Fin k) ℚ :=
  ∑ i, outerProd (lspiPhiSa φ state action i)
    (lspiPhiSprime φ w state done newState i)

theorem lspiAMat_apply {S : Type} {A k n : ℕ} (φ : S → Fin (A + 1) → Fin k → ℚ)
    (γ : ℚ) (w : Fin k → ℚ) (state : Fin n → S) (action : Fin n → Fin (A + 1))
    (done : Fin n → Bool) (newState : Fin n → S) (r c : Fin k) :
    lspiAMat φ γ w state action done newState r c
      = regMat k r c + ∑ i, lspiPhiSa φ state action i r
          * (lspiPhiSa φ state action i c
            - γ * lspiPhiSprime φ w state done newState i c) := by
  unfold lspiAMat outerProd
  simp [Matrix.add_apply, Matrix.sum_apply]

theorem lspiCrossMat_apply {S : Type} {A k n : ℕ} (φ : S → Fin (A + 1) → Fin k → ℚ)
    (w : Fin k → ℚ) (state : Fin n → S) (action : Fin n → Fin (A + 1))
    (done : Fin n → Bool) (newState : Fin n → S) (r c : Fin k) :
    lspiCrossMat φ w state action done newState r c
      = ∑ i, lspiPhiSa φ state action i r
          * lspiPhiSprime φ w state done newState i c := by
  unfold lspiCrossMat outerProd
  simp [Matrix.sum_apply]

/-- Over two actions `argmaxQ` picks action `1` exactly when its value is
strictly larger. -/
theorem argmaxQ_two (q : Fin 2 → ℚ) : argmaxQ q = if q 0 < q 1 then 1 else 0 := by
  unfold argmaxQ
  rw [show List.finRange 2 = [0, 1] from by decide]
  simp [List.foldl, ite_self]

/-- An inverse-quadratic radial kernel on one-dimensional rational states:
a decreasing function of the squared distance to the center. -/
def rbfKernel (s c : ℚ) : ℚ := 1 / (1 + (s - c) ^ 2)

/-- Modelled from the spec: `RadialBasisFunction.evaluate` of
src/lunar/utils/basis_functions.py, a file that is not part of the source
tree. Per spec section 4.4 it is a deterministic feature map from (state,
action) pairs to a fixed-length vector, with radial-basis features of the
state replicated/selected per discrete action. This concrete instance uses
a one-dimensional rational state, 2 discrete actions and `num_basis = 3`
radial centers `0, 1, 2`; the feature vector has length 6, with the
state's radial features occupying the block of the chosen action and zeros
elsewhere. -/
def rbfEval (s : ℚ) (a : Fin 2) (j : Fin 6) : ℚ :=
  if (j : ℕ) / 3 = (a : ℕ) then rbfKernel s (((j : ℕ) % 3 : ℕ) : ℚ) else 0

/-- C8 counterexample: for the modelled radial basis function, weights
`[1,1,1,0,0,0]`, `gamma = 0.99` and a batch of one non-terminal transition
(state `0`, action `1`, new state `1`), the accumulated system matrix has
`a_mat[0,3] = 0` but `a_mat[3,0] = -99/200`, so it is not symmetric — and
since these are off-diagonal entries, it is not symmetric up to the
diagonal regularization term either. -/
theorem claim8_counterexample :
    lspiAMat rbfEval (99 / 100) ![1, 1, 1, 0, 0, 0]
        ![(0 : ℚ)] ![(1 : Fin 2)] ![false] ![(1 : ℚ)] 0 3
      ≠ lspiAMat rbfEval (99 / 100) ![1, 1, 1, 0, 0, 0]
        ![(0 : ℚ)] ![(1 : Fin 2)] ![false] ![(1 : ℚ)] 3 0 := by
  have hq0 : lspiQ rbfEval ![(1 : ℚ), 1, 1, 0, 0, 0] (0 : ℚ) 0 = 17 / 10 := by
    rw [lspiQ, Fin.sum_univ_six]
    rw [show rbfEval 0 0 0 = rbfKernel 0 0 from rfl,
        show rbfEval 0 0 1 = rbfKernel 0 1 from rfl,
        show rbfEval 0 0 2 = rbfKernel 0 2 from rfl,
        show rbfEval 0 0 3 = (0 : ℚ) from rfl,
        show rbfEval 0 0 4 = (0 : ℚ) from rfl,
        show rbfEval 0 0 5 = (0 : ℚ) from rfl]
    norm_num [rbfKernel]
  have hq1 : lspiQ rbfEval ![(1 : ℚ), 1, 1, 0, 0, 0] (0 : ℚ) 1 = 0 := by
    rw [lspiQ, Fin.sum_univ_six]
    rw [show rbfEval 0 1 0 = (0 : ℚ) from rfl,
        show rbfEval 0 1 1 = (0 : ℚ) from rfl,
        show rbfEval 0 1 2 = (0 : ℚ) from rfl,
        show (![(1 : ℚ), 1, 1, 0, 0, 0] : Fin 6 → ℚ) 3 = 0 from rfl,
        show (![(1 : ℚ), 1, 1, 0, 0, 0] : Fin 6 → ℚ) 4 = 0 from rfl,
        show (![(1 : ℚ), 1, 1, 0, 0, 0] : Fin 6 → ℚ) 5 = 0 from rfl]
    norm_num
  have hact : lspiAct rbfEval ![(1 : ℚ), 1, 1, 0, 0, 0] (0 : ℚ) = 0 := by
    unfold lspiAct
    rw [argmaxQ_two, hq0, hq1]
    norm_num
  have hsp : lspiPhiSprime rbfEval ![(1 : ℚ), 1, 1, 0, 0, 0]
      ![(0 : ℚ)] ![false] ![(1 : ℚ)] 0 = rbfEval 1 0 := by
    unfold lspiPhiSprime
    rw [show (![false] : Fin 1 → Bool) 0 = false from rfl]
    simp only [Bool.false_eq_true, if_false]
    rw [show (![(1 : ℚ)] : Fin 1 → ℚ) 0 = 1 from rfl,
        show (![(0 : ℚ)] : Fin 1 → ℚ) 0 = 0 from rfl, hact]
  have hsa : lspiPhiSa rbfEval ![(0 : ℚ)] ![(1 : Fin 2)] 0 = rbfEval 0 1 := rfl
  have h03 : lspiAMat rbfEval (99 / 100) ![1, 1, 1, 0, 0, 0]
      ![(0 : ℚ)] ![(1 : Fin 2)] ![false] ![(1 : ℚ)] 0 3 = 0 := by
    rw [lspiAMat_apply, Fin.sum_univ_one, hsa, hsp]
    rw [show regMat 6 (0 : Fin 6) (3 : Fin 6) = 0 from rfl,
        show rbfEval 0 1 (0 : Fin 6) = (0 : ℚ) from rfl]
    ring
  have h30 : lspiAMat rbfEval (99 / 100) ![1, 1, 1, 0, 0, 0]
      ![(0 : ℚ)] ![(1 : Fin 2)] ![false] ![(1 : ℚ)] 3 0 = -(99 / 200) := by
    rw [lspiAMat_apply, Fin.sum_univ_one, hsa, hsp]
    rw [show regMat 6 (3 : Fin 6) (0 : Fin 6) = 0 from rfl,
        show rbfEval 0 1 (3 : Fin 6) = rbfKernel 0 0 from rfl,
        show rbfEval 0 1 (0 : Fin 6) = (0 : ℚ) from rfl,
        show rbfEval 1 0 (0 : Fin 6) = rbfKernel 1 0 from rfl]
    norm_num [rbfKernel]
  rw [h03, h30]
  norm_num

/-- C8 (amended): the accumulated system matrix is symmetric only after
the discounted successor cross-term is removed: for every basis function,
weight vector, discount and batch,
`a_mat - 0.1*I + gamma * Σ_i phi_sa_i @ phi_sprime_i.T` equals the Gram
matrix `Σ_i phi_sa_i @ phi_sa_i.T` and is symmetric; `a_mat` itself is in
general not symmetric for batches with non-terminal transitions (see the
counterexample). -/
theorem claim8_amended {S : Type} {A k n : ℕ} (φ : S → Fin (A + 1) → Fin k → ℚ)
    (γ : ℚ) (w : Fin k → ℚ) (state : Fin n → S) (action : Fin n → Fin (A + 1))
    (done : Fin n → Bool) (newState : Fin n → S) :
    (lspiAMat φ γ w state action done newState - regMat k
      + γ • lspiCrossMat φ w state action done newState).IsSymm := by
  have key : ∀ r c, (lspiAMat φ γ w state action done newState - regMat k
      + γ • lspiCrossMat φ w state action done newState) r c
      = ∑ i, lspiPhiSa φ state action i r * lspiPhiSa φ state action i c := by
    intro r c
    simp only [Matrix.add_apply, Matrix.sub_apply, Matrix.smul_apply, smul_eq_mul,
      lspiAMat_apply, lspiCrossMat_apply]
    rw [show ∀ (a b d : ℚ), a + b - a + d = b + d from fun a b d => by ring]
    rw [Finset.mul_sum, ← Finset.sum_add_distrib]
    apply Finset.sum_congr rfl
    intro i _
    ring
  unfold Matrix.IsSymm
  apply Matrix.ext
  intro r c
  rw [Matrix.transpose_apply, key, key]
  exact Finset.sum_congr rfl fun i _ => mul_comm _ _

/-- C10: in `OfflineLSPIAgent.learn`, for every non-terminal transition the
successor feature vector `phi_sprime` is the basis function evaluated at
`new_state[i]` under the action that `act()` greedily selects for the
**current** state `state[i]` (an action maximizing the linear Q-values of
`state[i]`), not for the successor state. The second conjunct exhibits
weights and states for which the greedy actions of `state[i]` and
`new_state[i]` differ (`0` versus `1`), so the two readings give different
feature vectors. -/
theorem claim10_lspi_bootstrap_action :
    (∀ (S : Type) (A k n : ℕ) (φ : S → Fin (A + 1) → Fin k → ℚ)
      (w : Fin k → ℚ) (state : Fin n → S) (done : Fin n → Bool)
      (newState : Fin n → S) (i : Fin n),
      ∃ astar, (∀ a, lspiQ φ w (state i) a ≤ lspiQ φ w (state i) astar) ∧
        lspiPhiSprime φ w state done newState i
          = if done i then (fun _ => 0) else φ (newState i) astar) ∧
    (lspiAct rbfEval ![(1 : ℚ), 0, 0, 0, 0, 1] (0 : ℚ) = 0 ∧
      lspiAct rbfEval ![(1 : ℚ), 0, 0, 0, 0, 1] (2 : ℚ) = 1 ∧
      lspiPhiSprime rbfEval ![(1 : ℚ), 0, 0, 0, 0, 1] ![(0 : ℚ)] ![false] ![(2 : ℚ)] 0
        ≠ lspiPhiSprimeAlt rbfEval ![(1 : ℚ), 0, 0, 0, 0, 1] ![false] ![(2 : ℚ)] 0) := by
  have hq00 : lspiQ rbfEval ![(1 : ℚ), 0, 0, 0, 0, 1] (0 : ℚ) 0 = 1 := by
    rw [lspiQ, Fin.sum_univ_six]
    rw [show rbfEval 0 0 0 = rbfKernel 0 0 from rfl,
        show rbfEval 0 0 3 = (0 : ℚ) from rfl,
        show rbfEval 0 0 4 = (0 : ℚ) from rfl,
        show rbfEval 0 0 5 = (0 : ℚ) from rfl,
        show (![(1 : ℚ), 0, 0, 0, 0, 1] : Fin 6 → ℚ) 5 = 1 from rfl]
    norm_num [rbfKernel]
  have hq01 : lspiQ rbfEval ![(1 : ℚ), 0, 0, 0, 0, 1] (0 : ℚ) 1 = 1 / 5 := by
    rw [lspiQ, Fin.sum_univ_six]
    rw [show rbfEval 0 1 0 = (0 : ℚ) from rfl,
        show rbfEval 0 1 5 = rbfKernel 0 2 from rfl,
        show (![(1 : ℚ), 0, 0, 0, 0, 1] : Fin 6 → ℚ) 5 = 1 from rfl]
    norm_num [rbfKernel]
  have hq20 : lspiQ rbfEval ![(1 : ℚ), 0, 0, 0, 0, 1] (2 : ℚ) 0 = 1 / 5 := by
    rw [lspiQ, Fin.sum_univ_six]
    rw [show rbfEval 2 0 0 = rbfKernel 2 0 from rfl,
        show rbfEval 2 0 3 = (0 : ℚ) from rfl,
        show rbfEval 2 0 4 = (0 : ℚ) from rfl,
        show rbfEval 2 0 5 = (0 : ℚ) from rfl,
        show (![(1 : ℚ), 0, 0, 0, 0, 1] : Fin 6 → ℚ) 5 = 1 from rfl]
    norm_num [rbfKernel]
  have hq21 : lspiQ rbfEval ![(1 : ℚ), 0, 0, 0, 0, 1] (2 : ℚ) 1 = 1 := by
    rw [lspiQ, Fin.sum_univ_six]
    rw [show rbfEval 2 1 0 = (0 : ℚ) from rfl,
        show rbfEval 2 1 5 = rbfKernel 2 2 from rfl,
        show (![(1 : ℚ), 0, 0, 0, 0, 1] : Fin 6 → ℚ) 5 = 1 from rfl]
    norm_num [rbfKernel]
  have hact0 : lspiAct rbfEval ![(1 : ℚ), 0, 0, 0, 0, 1] (0 : ℚ) = 0 := by
    unfold lspiAct
    rw [argmaxQ_two, hq00, hq01]
    norm_num
  have hact2 : lspiAct rbfEval ![(1 : ℚ), 0, 0, 0, 0, 1] (2 : ℚ) = 1 := by
    unfold lspiAct
    rw [argmaxQ_two, hq20, hq21]
    norm_num
  refine ⟨?_, hact0, hact2, ?_⟩
  · intro S A k n φ w state done newState i
    exact ⟨lspiAct φ w (state i), fun a => argmaxQ_isMax _ a, rfl⟩
  · have hL : lspiPhiSprime rbfEval ![(1 : ℚ), 0, 0, 0, 0, 1]
        ![(0 : ℚ)] ![false] ![(2 : ℚ)] 0 = rbfEval 2 0 := by
      unfold lspiPhiSprime
      rw [show (![false] : Fin 1 → Bool) 0 = false from rfl]
      simp only [Bool.false_eq_true, if_false]
      rw [show (![(2 : ℚ)] : Fin 1 → ℚ) 0 = 2 from rfl,
          show (![(0 : ℚ)] : Fin 1 → ℚ) 0 = 0 from rfl, hact0]
    have hR : lspiPhiSprimeAlt rbfEval ![(1 : ℚ), 0, 0, 0, 0, 1]
        ![false] ![(2 : ℚ)] 0 = rbfEval 2 1 := by
      unfold lspiPhiSprimeAlt
      rw [show (![false] : Fin 1 → Bool) 0 = false from rfl]
      simp only [Bool.false_eq_true, if_false]
      rw [show (![(2 : ℚ)] : Fin 1 → ℚ) 0 = 2 from rfl, hact2]
    rw [hL, hR]
    intro h
    have h0 := congrFun h 0
    rw [show rbfEval 2 0 0 = rbfKernel 2 0 from rfl,
        show rbfEval 2 1 0 = (0 : ℚ) from rfl] at h0
    norm_num [rbfKernel] at h0

/-- Metric keys emitted to the summary writer: `'Loss'`, `'Expected Q
Values'` (all DQN-family agents) and `'Distance'` (`OfflineLSPIAgent`). -/
inductive MetricKey where
  | loss
  | expectedQValues
  | distance
deriving DecidableEq

/-- Outcome of a `learn()` call with respect to the Python exception
model: either normal completion with a result, or an `AttributeError`
raised after the parameter update has already been applied (the carried
value is the state as mutated before the raise). -/
inductive LearnResult (α : Type) where
  | ok : α → LearnResult α
  | attributeError : α → LearnResult α
deriving DecidableEq

/-- Metric emissions of the guarded logging block shared by every
DQN-family `learn()` (src/src/agents.py:138-141,
src/src/lunar/agents.py:178-182, 257-261, 342-346, 413-417, 497-501):
`if self.summary_writer is not None and counter % checkpoint == 0`, the
keys `'Loss'` and `'Expected Q Values'` are written; otherwise nothing is. -/
def dqnLogCalls (writer : Option Unit) (counter checkpoint : ℕ) : List MetricKey :=
  if writer ≠ none ∧ counter % checkpoint = 0 then
    [MetricKey.loss, MetricKey.expectedQValues]
  else []

/-- A full `learn()` call of an offline DQN-family agent: the parameter
update and target sync of `offlineLearn` followed by the guarded logging
block; no exception is possible (src/src/lunar/agents.py:224-263). -/
def offlineDqnLearnRun {P : Type} (N checkpoint : ℕ) (u : P → P)
    (writer : Option Unit) (s : OfflineAgentState P) :
    LearnResult (OfflineAgentState P × List MetricKey) :=
  LearnResult.ok (offlineLearn N u s, dqnLogCalls writer s.batchesDone checkpoint)

/-- A full `learn()` call of an online DQN-family agent
(src/src/agents.py:104-141, src/src/lunar/agents.py:140-182). -/
def onlineDqnLearnRun {P : Type} (N checkpoint : ℕ) (u : P → P)
    (writer : Option Unit) (s : OnlineAgentState P) :
    LearnResult (OnlineAgentState P × List MetricKey) :=
  LearnResult.ok (onlineLearn N u s, dqnLogCalls writer s.stepsDone checkpoint)

/-- A full `learn()` call of `OfflineLSPIAgent`
(src/src/lunar/agents.py:544-576): the normal-equation system is
accumulated and handed to the external solver (`torch.solve`, taken as a
parameter), the weights are reassigned, and then
`self.summary_writer.add_scalar('Distance', distance)` is executed
**unguarded** — when no writer is attached this dereferences `None` and
raises `AttributeError`, after the weight update has already happened. -/
def lspiLearnRun {S : Type} {A k n : ℕ}
    (solve : Matrix (Fin k) (Fin k) ℚ → (Fin k → ℚ) → (Fin k → ℚ))
    (φ : S → Fin (A + 1) → Fin k → ℚ) (γ : ℚ) (writer : Option Unit)
    (w : Fin k → ℚ) (state : Fin n → S) (action : Fin n → Fin (A + 1))
    (reward : Fin n → ℚ) (done : Fin n → Bool) (newState : Fin n → S) :
    LearnResult ((Fin k → ℚ) × List MetricKey) :=
  let wNew := solve (lspiAMat φ γ w state action done newState)
    (lspiBVec φ state action reward)
  match writer with
  | some _ => LearnResult.ok (wNew, [MetricKey.distance])
  | none => LearnResult.attributeError (wNew, [])

/-- C9: with no summary writer attached, every DQN-family `learn()`
completes the parameter update normally and emits no metric call; but
`OfflineLSPIAgent.learn` raises an `AttributeError` from its unguarded
`self.summary_writer.add_scalar` (after its weight update has been
applied), contradicting the claim that the absence of a writer is a no-op
for every variant. -/
theorem claim9_no_writer :
    (∀ (P : Type) (N checkpoint : ℕ) (u : P → P) (s : OfflineAgentState P),
      offlineDqnLearnRun N checkpoint u none s
        = LearnResult.ok (offlineLearn N u s, [])) ∧
    (∀ (P : Type) (N checkpoint : ℕ) (u : P → P) (s : OnlineAgentState P),
      onlineDqnLearnRun N checkpoint u none s
        = LearnResult.ok (onlineLearn N u s, [])) ∧
    (∀ (S : Type) (A k n : ℕ)
      (solve : Matrix (Fin k) (Fin k) ℚ → (Fin k → ℚ) → (Fin k → ℚ))
      (φ : S → Fin (A + 1) → Fin k → ℚ) (γ : ℚ) (w : Fin k → ℚ)
      (state : Fin n → S) (action : Fin n → Fin (A + 1)) (reward : Fin n → ℚ)
      (done : Fin n → Bool) (newState : Fin n → S),
      lspiLearnRun solve φ γ none w state action reward done newState
        = LearnResult.attributeError
            (solve (lspiAMat φ γ w state action done newState)
              (lspiBVec φ state action reward), [])) := by
  refine ⟨?_, ?_, ?_⟩
  · intro P N checkpoint u s
    simp [offlineDqnLearnRun, dqnLogCalls]
  · intro P N checkpoint u s
    simp [onlineDqnLearnRun, dqnLogCalls]
  · intro S A k n solve φ γ w state action reward done newState
    rfl
